import Mathlib

/-!
Verification of the `pokerathome` python bot's game-state core
(`pokerathomebotlib/state.py`, `message.py`, `net.py`, `util.py`),
as a shallow embedding: Python classes become Lean structures, the
assert-based constructors become `Option`-valued smart constructors,
the JSON payload tree becomes the inductive `Json`, and the websocket
dispatch loop (`do_client`) becomes a step function over a list of
already-decoded payloads.
-/

/-! ## JSON payloads

A payload is a tree of nulls, booleans, integers, strings, arrays and
objects, mirroring what `json.loads` produces for the messages this
protocol exchanges (the payloads in play carry integer numbers, so the
number case is modelled as `Int`).  An object is an association list in
insertion order with unique keys, matching a Python `dict`. -/

inductive Json where
  | null
  | b (bb : Bool)
  | i (n : Int)
  | s (str : String)
  | arr (xs : List Json)
  | obj (fields : List (String × Json))

/-- `json[k]` on a dict: the value at key `k`, or a `KeyError` (`none`). -/
def dget (j : List (String × Json)) (k : String) : Option Json :=
  j.lookup k

/-- `isinstance(x, bool)` followed by use as a boolean. -/
def asBool : Json → Option Bool
  | .b bb => some bb
  | _ => none

/-- Use of a payload value where `util.py`'s integer checks apply.
Python's `isinstance(x, int)` also accepts booleans (`bool` is a
subtype of `int`, `True == 1`, `False == 0`), so a JSON boolean passes
wherever an integer is expected; sign checks happen later, in the
entity constructors, exactly as in the source. -/
def asInt : Json → Option Int
  | .i n => some n
  | .b bb => some (if bb then 1 else 0)
  | _ => none

/-- Use of a payload value where a string is required
(`assert_type(x, str)`, or python's `UUID`/`Enum` raising on
non-strings). -/
def asStr : Json → Option String
  | .s str => some str
  | _ => none

/-- Use of a payload value as a list to iterate over. -/
def asArr : Json → Option (List Json)
  | .arr xs => some xs
  | _ => none

/-- Use of a payload value as a nested object to subscript. -/
def asObj : Json → Option (List (String × Json))
  | .obj fs => some fs
  | _ => none

/-! ## Primitive value types (`state.py`) -/

/-- Value of a hexadecimal digit, or `none` for a non-hex character. -/
def hexVal (c : Char) : Option Nat :=
  if '0' ≤ c ∧ c ≤ '9' then some (c.toNat - '0'.toNat)
  else if 'a' ≤ c ∧ c ≤ 'f' then some (c.toNat - 'a'.toNat + 10)
  else if 'A' ≤ c ∧ c ≤ 'F' then some (c.toNat - 'A'.toNat + 10)
  else none

/-- `int(hex_digits, 16)`: fails on any non-hex character. -/
def hexToNat (cs : List Char) : Option Nat :=
  cs.foldlM (fun acc c => (hexVal c).map fun d => acc * 16 + d) 0

/-- `str.replace(pat, "")` on character lists: scan left to right,
dropping each (non-overlapping) occurrence of the pattern.  The fuel
argument (instantiated with the list's length, consumed one unit per
examined character) only makes the recursion structural. -/
def removeAllFuel (pat : List Char) : Nat → List Char → List Char
  | _, [] => []
  | 0, cs => cs
  | fuel + 1, c :: cs =>
    if pat.isPrefixOf (c :: cs) ∧ pat ≠ [] then
      removeAllFuel pat fuel (cs.drop (pat.length - 1))
    else c :: removeAllFuel pat fuel cs

/-- `str.replace(pat, "")`. -/
def removeAll (pat cs : List Char) : List Char :=
  removeAllFuel pat cs.length cs

/-- Python's `uuid.UUID(hex=s)` constructor: drop every occurrence of
`urn:` and `uuid:`, strip braces from both ends, drop hyphens, and
require exactly 32 hexadecimal digits whose value is the identifier.
(Exotic spellings Python's `int` literal parser would also accept,
such as embedded underscores, are not modelled.) -/
def parseUUID (str : String) : Option Nat :=
  let cs := removeAll "uuid:".data (removeAll "urn:".data str.data)
  let cs := cs.dropWhile fun c => c == '{' || c == '}'
  let cs := (cs.reverse.dropWhile fun c => c == '{' || c == '}').reverse
  let cs := cs.filter fun c => c ≠ '-'
  if cs.length = 32 then hexToNat cs else none

/-- `PlayerId`: wraps the 128-bit integer of a UUID; equality is
equality of the underlying identifier. -/
structure PlayerId where
  uuid : Nat
deriving DecidableEq

/-- `PlayerId(uuid_str)`: parses the UUID string, failing as the
`UUID` constructor does on malformed input. -/
def PlayerId.parse (str : String) : Option PlayerId :=
  (parseUUID str).map PlayerId.mk

/-- `FAKE_PLAYER_ID = PlayerId("12345678-1234-5678-1234-567812345678")`. -/
def FAKE_PLAYER_ID : PlayerId :=
  ⟨0x12345678123456781234567812345678⟩

/-- `Suit`: enum of the four suits, each encoded by one character. -/
inductive Suit where
  | HEARTS
  | DIAMONDS
  | SPADES
  | CLUBS
deriving DecidableEq

/-- `Suit(c)`: enum lookup by value; raises (fails) on any other
character. -/
def Suit.ofChar : Char → Option Suit
  | 'h' => some .HEARTS
  | 'd' => some .DIAMONDS
  | 's' => some .SPADES
  | 'c' => some .CLUBS
  | _ => none

/-- `suit.value`: the character encoding the suit. -/
def Suit.toChar : Suit → Char
  | .HEARTS => 'h'
  | .DIAMONDS => 'd'
  | .SPADES => 's'
  | .CLUBS => 'c'

/-- `Card.VALID_VALUES = "A23456789TJQK"`. -/
def Card.VALID_VALUES : String := "A23456789TJQK"

/-- `Card`: the source's `__init__` checks the two-character code and
the rank's membership in `VALID_VALUES`, but stores only
`self._suit = Suit(rep[1])`; the rank character is validated and then
discarded, so a `Card` value carries only its suit. -/
structure Card where
  suit : Suit
deriving DecidableEq

/-- `Card(rep)`: requires a 2-character string, a rank in
`VALID_VALUES` and a valid suit character. -/
def Card.parse (rep : String) : Option Card :=
  match rep.data with
  | [r, su] =>
    if r ∈ Card.VALID_VALUES.data then (Suit.ofChar su).map Card.mk
    else none
  | _ => none

/-! ## Entity model (`state.py`, `message.py`)

Each Python constructor becomes a `mk?` smart constructor returning
`none` exactly when one of its `assert`s would raise.  Checks that are
pure dynamic-type tests (`assert_type(..., Card)` etc.) hold by typing
in this embedding and leave no residue. -/

structure PlayerGameState where
  cards : List (Option Card)
  folded : Bool
  stack : Int
  bet : Int
  pot_share : Int
deriving DecidableEq

/-- `PlayerGameState.__init__`: exactly two (possibly unrevealed)
cards and nonnegative stack, bet and pot share. -/
def PlayerGameState.mk? (cards : List (Option Card)) (folded : Bool)
    (stack bet pot_share : Int) : Option PlayerGameState :=
  if cards.length = 2 ∧ 0 ≤ stack ∧ 0 ≤ bet ∧ 0 ≤ pot_share then
    some ⟨cards, folded, stack, bet, pot_share⟩
  else none

/-- `is_all_in`: `self._stack == 0 and self._pot_share > 0`. -/
def PlayerGameState.is_all_in (p : PlayerGameState) : Bool :=
  (p.stack == 0) && decide (0 < p.pot_share)

structure Pot where
  amount : Int
  player_shares : List (PlayerId × Int)
deriving DecidableEq

/-- `Pot.__init__`, given an already-existing dict value: checks the
amount is nonnegative, and — only when the share mapping is non-empty
— that its FIRST key is a `PlayerId` (a typing fact here) and its
FIRST value is nonnegative (`next(iter(player_shares...))`); later
entries are not inspected.  NOTE: `PlayerId` is unhashable (`__eq__`
without `__hash__`), so the only `dict[PlayerId, int]` value the
program can ever build and hand to this constructor is the empty one
(see `mkPlayerIdDict`); in the source `Pot` is only called with `{}`. -/
def Pot.mk? (amount : Int) (player_shares : List (PlayerId × Int)) :
    Option Pot :=
  if 0 ≤ amount then
    match player_shares with
    | [] => some ⟨amount, player_shares⟩
    | kv :: _ =>
      if 0 ≤ kv.2 then some ⟨amount, player_shares⟩ else none
  else none

/-- Building a `dict` keyed by `PlayerId`s from the given entries: a
dict display (or any insert) hashes each key, and `PlayerId` is
unhashable, so construction raises `TypeError` unless there is no
entry to hash — only the empty `dict[PlayerId, int]` can exist. -/
def mkPlayerIdDict (entries : List (PlayerId × Int)) :
    Option (List (PlayerId × Int)) :=
  match entries with
  | [] => some []
  | _ => none

/-- End-to-end `Pot` construction as the program could attempt it:
first build the `dict[PlayerId, int]` argument, then run
`Pot.__init__` on it. -/
def Pot.construct (amount : Int) (entries : List (PlayerId × Int)) :
    Option Pot :=
  (mkPlayerIdDict entries).bind fun shares => Pot.mk? amount shares

structure SharedGameState where
  pot_total : Int
  pots : List Pot
  board_cards : List Card
  small_blind : Int
  big_blind : Int
deriving DecidableEq

/-- `SharedGameState.__init__`: nonnegative pot total and blinds, a
non-empty pot list, and 3 to 5 board cards. -/
def SharedGameState.mk? (pot_total : Int) (pots : List Pot)
    (board_cards : List Card) (small_blind big_blind : Int) :
    Option SharedGameState :=
  if 0 ≤ pot_total ∧ pots ≠ [] ∧
      (3 ≤ board_cards.length ∧ board_cards.length ≤ 5) ∧
      0 ≤ small_blind ∧ 0 ≤ big_blind then
    some ⟨pot_total, pots, board_cards, small_blind, big_blind⟩
  else none

/-- `GameState.__init__`: all of its checks are dynamic type tests on
already-typed components, so in this embedding construction always
succeeds and the plain structure constructor models it. -/
structure GameState where
  shared_state : SharedGameState
  player_states : List (PlayerId × PlayerGameState)
  dealer_player : PlayerId
  small_blind_player : PlayerId
  big_blind_player : PlayerId
  active_player : Option PlayerId
deriving DecidableEq

/-- `ActionType`: enum with the single placeholder value `""`. -/
inductive ActionType where
  | TODO
deriving DecidableEq

/-- `ActionType(s)`: enum lookup by value. -/
def ActionType.ofString (str : String) : Option ActionType :=
  if str = "" then some .TODO else none

/-- `GameStateMessage.__init__`: only dynamic type tests, so plain
construction. -/
structure GameStateMessage where
  action_type : ActionType
  game_state : GameState
  action_requested : Bool
deriving DecidableEq

/-! ## Event decoder (`net.py`) -/

/-- Hole cards: `if card_specs is not None` decode each entry as a
`Card` (each entry must be a valid code string), else the pair
`[None, None]`. -/
def parseHoleCards : Json → Option (List (Option Card))
  | .null => some [none, none]
  | v =>
    (asArr v).bind fun cs =>
    cs.mapM fun c => ((asStr c).bind Card.parse).map some

/-- The body of the `for player_spec in json["players"]` loop, apart
from the player id: every field is read from the OUTER `game_state`
payload `j` (`json["holeCards"]`, `json["folded"]`, `json["stack"]`,
`json["bet"]`, `json["pot_share"]`), not from the player's own
sub-record. -/
def parsePlayerState (j : List (String × Json)) :
    Option PlayerGameState :=
  (dget j "holeCards").bind fun cardsJson =>
  (parseHoleCards cardsJson).bind fun player_cards =>
  ((dget j "folded").bind asBool).bind fun folded =>
  ((dget j "stack").bind asInt).bind fun stack =>
  ((dget j "bet").bind asInt).bind fun bet =>
  ((dget j "pot_share").bind asInt).bind fun pot_share =>
  PlayerGameState.mk? player_cards folded stack bet pot_share

/-- `player_states[player_id] = ...` (net.py): `PlayerId` overrides
`__eq__` without defining `__hash__`, so Python 3 sets its `__hash__`
to `None` and instances are unhashable — subscript assignment hashes
the key and raises `TypeError` unconditionally, whatever the dict and
key are. -/
def dinsert (_m : List (PlayerId × PlayerGameState)) (_k : PlayerId)
    (_v : PlayerGameState) : Option (List (PlayerId × PlayerGameState)) :=
  none

/-- The `for player_spec in json["players"]` loop of
`parse_game_state`, accumulating the `player_states` dict. -/
def parsePlayers (j : List (String × Json))
    (acc : List (PlayerId × PlayerGameState)) :
    List Json → Option (List (PlayerId × PlayerGameState))
  | [] => some acc
  | spec :: rest =>
    (asObj spec).bind fun specObj =>
    ((dget specObj "id").bind asStr).bind fun idStr =>
    (PlayerId.parse idStr).bind fun pid =>
    (parsePlayerState j).bind fun pgs =>
    (dinsert acc pid pgs).bind fun acc2 =>
    parsePlayers j acc2 rest

/-- `parse_game_state(json)`: decodes the `game_state` object into a
`GameState`, driving the entity constructors; any failure anywhere
makes the whole decode fail. -/
def parse_game_state (j : List (String × Json)) : Option GameState :=
  ((dget j "players").bind asArr).bind fun players =>
  (parsePlayers j [] players).bind fun player_states =>
  ((dget j "pot").bind asInt).bind fun pot =>
  (Pot.mk? pot []).bind fun pot0 =>
  ((dget j "communityCards").bind asArr).bind fun boardJson =>
  (boardJson.mapM fun c => (asStr c).bind Card.parse).bind fun board =>
  ((dget j "smallBlindAmount").bind asInt).bind fun sb =>
  ((dget j "bigBlindAmount").bind asInt).bind fun bb =>
  (SharedGameState.mk? pot [pot0] board sb bb).bind fun shared =>
  ((dget j "activeplayerId").bind asStr).bind fun activeStr =>
  (PlayerId.parse activeStr).map fun active =>
  { shared_state := shared
    player_states := player_states
    dealer_player := FAKE_PLAYER_ID
    small_blind_player := FAKE_PLAYER_ID
    big_blind_player := FAKE_PLAYER_ID
    active_player := some active }

/-- `parse_game_state_message(json)`: wraps the decoded `GameState`
with the action tag and the action-requested flag. -/
def parse_game_state_message (j : List (String × Json)) :
    Option GameStateMessage :=
  ((dget j "action").bind asStr).bind fun actionStr =>
  (ActionType.ofString actionStr).bind fun actionType =>
  ((dget j "game_state").bind asObj).bind fun gsObj =>
  (parse_game_state gsObj).bind fun gs =>
  ((dget j "actionRequested").bind asBool).map fun ar =>
  { action_type := actionType, game_state := gs
    action_requested := ar }

/-! ## Stream dispatcher (`do_client` in `net.py`) -/

/-- Outcome of one iteration of the receive loop for one payload. -/
inductive StepResult where
  | errored
  | ignored
  | handled (msg : GameStateMessage)
deriving DecidableEq

/-- One iteration of `do_client`'s loop on an already-`json.loads`ed
object: `data.pop("event")` raises `KeyError` when the key is absent
(`errored`); an event equal to `"gameState"` decodes the remaining
payload and hands the message to the bot (`handled`), with any decode
failure raising out of the loop (`errored`); any other event value is
logged as a warning and skipped (`ignored`). -/
def dispatch_step (data : List (String × Json)) : StepResult :=
  match data.lookup "event" with
  | none => .errored
  | some (Json.s ev) =>
    if ev = "gameState" then
      match parse_game_state_message
          (data.eraseP fun kv => kv.1 == "event") with
      | some msg => .handled msg
      | none => .errored
    else .ignored
  | some _ => .ignored

/-- The receive loop over a finite prefix of the message stream:
returns the messages handed to the bot, in order, or `none` as soon as
an iteration raises (terminating the loop). -/
def do_client : List (List (String × Json)) →
    Option (List GameStateMessage)
  | [] => some []
  | data :: rest =>
    match dispatch_step data with
    | .errored => none
    | .ignored => do_client rest
    | .handled msg => (do_client rest).map fun msgs => msg :: msgs

/-! ## Claim C5: aliasing model

The pure entity model above cannot express Python aliasing, so the
copy-vs-alias behaviour of `PlayerGameState` is refined with a tiny
mutable-list heap: a cell per Python `list` object, a reference being
an index.  `PlayerGameState.__init__` stores the caller's list itself
(`self._cards = cards` — no copy), while `get_cards` returns
`list(self._cards)` — a freshly allocated copy of the current
contents. -/

structure Heap (α : Type) where
  cells : List α
deriving DecidableEq

/-- Dereference a list object. -/
def Heap.read {α : Type} (h : Heap α) (r : Nat) : Option α :=
  h.cells[r]?

/-- In-place mutation of a list object (what a caller holding the
same reference can do). -/
def Heap.write {α : Type} (h : Heap α) (r : Nat) (v : α) : Heap α :=
  ⟨h.cells.set r v⟩

/-- Allocate a fresh list object. -/
def Heap.alloc {α : Type} (h : Heap α) (v : α) : Heap α × Nat :=
  (⟨h.cells ++ [v]⟩, h.cells.length)

/-- `PlayerGameState`, heap-level: the cards field is the REFERENCE
the caller passed in, stored without copying. -/
structure PlayerGameStateObj where
  cardsRef : Nat
  folded : Bool
  stack : Int
  bet : Int
  pot_share : Int
deriving DecidableEq

/-- `PlayerGameState.__init__` at heap level: validates the current
contents of the caller's list and stores the reference itself. -/
def PlayerGameStateObj.init (h : Heap (List (Option Card)))
    (cardsRef : Nat) (folded : Bool) (stack bet pot_share : Int) :
    Option PlayerGameStateObj :=
  (h.read cardsRef).bind fun cards =>
  if cards.length = 2 ∧ 0 ≤ stack ∧ 0 ≤ bet ∧ 0 ≤ pot_share then
    some ⟨cardsRef, folded, stack, bet, pot_share⟩
  else none

/-- The accessor pattern `return list(self._x)` / `return
dict(self._x)` shared by every container-returning accessor: allocate
a fresh container holding the current contents of the stored
reference and return the fresh reference. -/
def copyOut {α : Type} (h : Heap α) (r : Nat) : Option (Heap α × Nat) :=
  (h.read r).map fun v => h.alloc v

/-- `PlayerGameState.get_cards`: `return list(self._cards)`. -/
def PlayerGameStateObj.get_cards (p : PlayerGameStateObj)
    (h : Heap (List (Option Card))) :
    Option (Heap (List (Option Card)) × Nat) :=
  copyOut h p.cardsRef

/-- `Pot`, heap-level: the amount plus the reference of the dict the
constructor STORED (a fresh copy — see `PotObj.init`). -/
structure PotObj where
  amount : Int
  sharesRef : Nat
deriving DecidableEq

/-- `Pot.__init__` at heap level: validates the current contents of
the caller's dict exactly as `Pot.mk?` does, then stores a COPY —
`self._player_shares = dict(player_shares)` — at a fresh reference. -/
def PotObj.init (h : Heap (List (PlayerId × Int))) (amount : Int)
    (sharesRef : Nat) : Option (Heap (List (PlayerId × Int)) × PotObj) :=
  (h.read sharesRef).bind fun shares =>
  (Pot.mk? amount shares).map fun _ =>
    ((h.alloc shares).1, ⟨amount, (h.alloc shares).2⟩)

/-- `Pot.get_player_shares`: `return dict(self._player_shares)`. -/
def PotObj.get_player_shares (q : PotObj)
    (h : Heap (List (PlayerId × Int))) :
    Option (Heap (List (PlayerId × Int)) × Nat) :=
  copyOut h q.sharesRef

/-- `SharedGameState`, heap-level: `__init__` stores the caller's pot
list and board-card list themselves (`self._pots = pots`,
`self._board_cards = board_cards` — no copy), so the fields hold the
caller's references.  The pot and board cells live in heaps of their
own element types; a `Pot` value in the pots cell stands for the
(effectively immutable) `Pot` object, matching the shallow `list(...)`
copy the accessors make. -/
structure SharedGameStateObj where
  pot_total : Int
  potsRef : Nat
  boardRef : Nat
  small_blind : Int
  big_blind : Int
deriving DecidableEq

/-- `SharedGameState.get_pots`: `return list(self._pots)`. -/
def SharedGameStateObj.get_pots (s : SharedGameStateObj)
    (h : Heap (List Pot)) : Option (Heap (List Pot) × Nat) :=
  copyOut h s.potsRef

/-- `SharedGameState.get_board_cards`: `return list(self._board_cards)`. -/
def SharedGameStateObj.get_board_cards (s : SharedGameStateObj)
    (h : Heap (List Card)) : Option (Heap (List Card) × Nat) :=
  copyOut h s.boardRef

/-- `GameState`, heap-level: `__init__` stores the caller's
player-states dict itself (`self._player_states = player_states` — no
copy); only the dict reference matters for the accessor property. -/
structure GameStateObj where
  player_statesRef : Nat
deriving DecidableEq

/-- `GameState.get_player_states`: `return dict(self._player_states)`. -/
def GameStateObj.get_player_states (g : GameStateObj)
    (h : Heap (List (PlayerId × PlayerGameState))) :
    Option (Heap (List (PlayerId × PlayerGameState)) × Nat) :=
  copyOut h g.player_statesRef

/-- The heap the caller starts from: one list object `[None, None]`
at reference 0. -/
def c5h0 : Heap (List (Option Card)) := ⟨[[none, none]]⟩

/-! ## Concrete payloads used by witnesses and counterexamples -/

def fakeUuidStr : String := "12345678-1234-5678-1234-567812345678"

/-- The `game_state` object of the specified scenario payload, with
the uuid a parameter. -/
def c1gs (u : String) : List (String × Json) :=
  [("players", .arr [.obj [("id", .s u)]]), ("holeCards", .null),
   ("folded", .b false), ("stack", .i 100), ("bet", .i 0),
   ("pot_share", .i 0), ("pot", .i 0),
   ("communityCards", .arr [.s "Ah", .s "Kd", .s "2s"]),
   ("smallBlindAmount", .i 1), ("bigBlindAmount", .i 2),
   ("activeplayerId", .s u)]

/-- The full scenario payload of the spec. -/
def c1payload (u : String) : List (String × Json) :=
  [("event", .s "gameState"), ("action", .s ""),
   ("actionRequested", .b true), ("game_state", .obj (c1gs u))]

/-- A `game_state` object with TWO players (distinct ids), otherwise
identical to the scenario payload. -/
def c2twoPlayers : List (String × Json) :=
  [("players", .arr [.obj [("id", .s fakeUuidStr)],
     .obj [("id", .s "00000000-0000-0000-0000-000000000001")]]),
   ("holeCards", .null), ("folded", .b false), ("stack", .i 100),
   ("bet", .i 0), ("pot_share", .i 0), ("pot", .i 0),
   ("communityCards", .arr [.s "Ah", .s "Kd", .s "2s"]),
   ("smallBlindAmount", .i 1), ("bigBlindAmount", .i 2),
   ("activeplayerId", .s fakeUuidStr)]

/-! ## Claim C3 -/

theorem suit_toChar_ofChar {c : Char} {su : Suit}
    (h : Suit.ofChar c = some su) : su.toChar = c := by
  unfold Suit.ofChar at h
  split at h <;> first
    | (injection h with h'; subst h'; rfl)
    | exact Option.noConfusion h

/-- C3 (amended): a two-character code whose rank character is in
`A23456789TJQK` and whose suit character names a suit parses
successfully, and the parsed `Card`'s suit re-encodes (via the `Suit`
enum value) to the code's suit character; every other string is
rejected.  The rank is validated but not retained by the `Card`, so
only the suit character of the code is recoverable. -/
theorem C3_card_parse_characterisation (rep : String) :
    ((Card.parse rep).isSome = true ↔
      ∃ r su, rep.data = [r, su] ∧ r ∈ Card.VALID_VALUES.data ∧
        (Suit.ofChar su).isSome = true)
    ∧ ∀ c, Card.parse rep = some c →
        ∃ r, rep.data = [r, c.suit.toChar] := by
  constructor
  · unfold Card.parse
    rcases hd : rep.data with _ | ⟨r, _ | ⟨su, _ | ⟨x, xs⟩⟩⟩ <;>
      simp [hd]
    split
    · rename_i hr
      constructor
      · intro hs; exact ⟨r, su, ⟨rfl, rfl⟩, hr, by simpa using hs⟩
      · rintro ⟨r', su', ⟨rfl, rfl⟩, -, hs⟩; simpa using hs
    · rename_i hr
      simp_all
  · intro c hc
    unfold Card.parse at hc
    rcases hd : rep.data with _ | ⟨r, _ | ⟨su, _ | ⟨x, xs⟩⟩⟩ <;>
      rw [hd] at hc <;> simp at hc
    rcases hc with ⟨hr, a, ha, hmk⟩
    refine ⟨r, ?_⟩
    rw [← hmk]
    simp [suit_toChar_ofChar ha]

/-- C3, as stated, fails: the codes `"Ah"` and `"Kh"` are distinct yet
construct the very same `Card` value (the rank is discarded), so no
re-encoding of a constructed `Card` can return both codes. -/
theorem C3_counterexample :
    Card.parse "Ah" = some ⟨Suit.HEARTS⟩ ∧
      Card.parse "Kh" = some ⟨Suit.HEARTS⟩ ∧
      ("Ah" : String) ≠ "Kh" ∧
      ¬ ∃ enc : Card → String,
        ∀ rep c, Card.parse rep = some c → enc c = rep := by
  refine ⟨by decide, by decide, by decide, ?_⟩
  rintro ⟨enc, he⟩
  have h1 : enc ⟨Suit.HEARTS⟩ = "Ah" := he "Ah" ⟨Suit.HEARTS⟩ (by decide)
  have h2 : enc ⟨Suit.HEARTS⟩ = "Kh" := he "Kh" ⟨Suit.HEARTS⟩ (by decide)
  exact absurd (h1 ▸ h2) (by decide)

theorem C3_witness : (Card.parse "Ah").isSome = true :=
  (C3_card_parse_characterisation "Ah").1.mpr ⟨'A', 'h', by decide⟩

/-! ## Claim C7 -/

/-- C7: with every other field valid, `SharedGameState` construction
succeeds exactly when the board has 3, 4 or 5 cards. -/
theorem C7_board_length (pot_total : Int) (pots : List Pot)
    (board : List Card) (sb bb : Int)
    (h1 : 0 ≤ pot_total) (h2 : pots ≠ []) (h3 : 0 ≤ sb) (h4 : 0 ≤ bb) :
    (SharedGameState.mk? pot_total pots board sb bb).isSome = true ↔
      (3 ≤ board.length ∧ board.length ≤ 5) := by
  unfold SharedGameState.mk?
  split <;> simp_all

theorem C7_witness :
    (SharedGameState.mk? 0 [⟨0, []⟩]
      [⟨Suit.HEARTS⟩, ⟨Suit.DIAMONDS⟩, ⟨Suit.SPADES⟩] 0 0).isSome
      = true :=
  (C7_board_length 0 [⟨0, []⟩]
    [⟨Suit.HEARTS⟩, ⟨Suit.DIAMONDS⟩, ⟨Suit.SPADES⟩] 0 0
    (by decide) (by decide) (by decide) (by decide)).mpr (by decide)

/-! ## Claim C8 -/

/-- C8: a stack of `-1` fails construction; stack `0` with pot share
`0` constructs a player who is not all-in; stack `0` with pot share
`5` constructs one who is; and in general `is_all_in` holds exactly
when the stack is zero and the pot share positive. -/
theorem C8_all_in (p : PlayerGameState) :
    PlayerGameState.mk? [none, none] false (-1) 0 0 = none
    ∧ (PlayerGameState.mk? [none, none] false 0 0 0).map
        PlayerGameState.is_all_in = some false
    ∧ (PlayerGameState.mk? [none, none] false 0 0 5).map
        PlayerGameState.is_all_in = some true
    ∧ (p.is_all_in = true ↔ (p.stack = 0 ∧ 0 < p.pot_share)) := by
  refine ⟨by decide, by decide, by decide, ?_⟩
  simp [PlayerGameState.is_all_in]

theorem C8_witness :
    (⟨[none, none], false, 0, 0, 5⟩ : PlayerGameState).stack = 0 ∧
      0 < (⟨[none, none], false, 0, 0, 5⟩ : PlayerGameState).pot_share :=
  (C8_all_in ⟨[none, none], false, 0, 0, 5⟩).2.2.2.mp (by decide)

/-! ## Claims C9 and C10 -/

/-- C9: a payload whose `event` value is present but is not the string
`"gameState"` is ignored — the dispatch step neither decodes nor hands
anything to the bot nor raises, and the loop continues over the rest
of the stream exactly as if the payload had not been received. -/
theorem C9_unknown_event_ignored (data : List (String × Json))
    (v : Json) (rest : List (List (String × Json)))
    (hv : data.lookup "event" = some v)
    (hne : v ≠ Json.s "gameState") :
    dispatch_step data = .ignored ∧
      do_client (data :: rest) = do_client rest := by
  have hstep : dispatch_step data = .ignored := by
    unfold dispatch_step
    rw [hv]
    cases v with
    | s ev =>
      have hne' : ev ≠ "gameState" := fun h => hne (by rw [h])
      simp [hne']
    | null => rfl
    | b bb => rfl
    | i n => rfl
    | arr xs => rfl
    | obj fs => rfl
  exact ⟨hstep, by simp [do_client, hstep]⟩

theorem C9_witness :
    dispatch_step [("event", Json.s "ping")] = .ignored ∧
      do_client [[("event", Json.s "ping")]] = do_client [] :=
  C9_unknown_event_ignored [("event", Json.s "ping")] (Json.s "ping")
    [] rfl (fun h => by injection h with h'; exact absurd h' (by decide))

/-- C10: a payload object with no `event` key at all makes
`data.pop("event")` raise `KeyError`, which terminates the receive
loop — no later message is processed — unlike an unrecognized event
value, which is merely logged and skipped. -/
theorem C10_missing_event_errors (data : List (String × Json))
    (rest : List (List (String × Json)))
    (hv : data.lookup "event" = none) :
    dispatch_step data = .errored ∧ do_client (data :: rest) = none := by
  have hstep : dispatch_step data = .errored := by
    unfold dispatch_step
    rw [hv]
  exact ⟨hstep, by simp [do_client, hstep]⟩

theorem C10_witness :
    dispatch_step [] = .errored ∧
      do_client [[], [("event", Json.s "ping")]] = none :=
  C10_missing_event_errors [] [[("event", Json.s "ping")]] rfl

/-! ## Claim C5 theorems -/

/-- C5, as stated, fails: the constructor stores the caller's list
without copying (`self._cards = cards`), so after the caller mutates
the list it passed in, `get_cards` reports the mutated contents: here
the two-card list the entity was constructed from is emptied in place
and the accessor's copy goes from `[None, None]` to `[]`. -/
theorem C5_counterexample :
    (PlayerGameStateObj.init c5h0 0 false 100 0 0).isSome = true
    ∧ ((PlayerGameStateObj.init c5h0 0 false 100 0 0).bind fun p =>
        (p.get_cards c5h0).map fun hr => hr.1.read hr.2)
      = some (some [none, none])
    ∧ ((PlayerGameStateObj.init c5h0 0 false 100 0 0).bind fun p =>
        (p.get_cards (c5h0.write 0 [])).map fun hr => hr.1.read hr.2)
      = some (some []) := by
  decide

/-! ## Claim C4 -/

/-- C1: the scenario decode NEVER succeeds.  `PlayerId` overrides
`__eq__` without defining `__hash__`, so it is unhashable; for any
uuid string the decode of the scenario payload either fails to parse
the uuid or reaches `player_states[player_id] = ...` and the dict
assignment raises `TypeError`.  Either way nothing is returned.  The
claimed successful decode is the evident intent of the module; the
missing `__hash__` is the code bug. -/
theorem C1_player_insert_crashes (u : String) :
    parse_game_state_message (c1payload u) = none := by
  cases hu : PlayerId.parse u with
  | none =>
    simp [parse_game_state_message, parse_game_state, parsePlayers,
          parsePlayerState, parseHoleCards, c1payload, c1gs, dget,
          dinsert, asStr, asObj, asArr, asBool, asInt,
          ActionType.ofString, hu, List.lookup]
  | some pid =>
    simp [parse_game_state_message, parse_game_state, parsePlayers,
          parsePlayerState, parseHoleCards, c1payload, c1gs, dget,
          dinsert, asStr, asObj, asArr, asBool, asInt,
          ActionType.ofString, hu, List.lookup]

/-! ## Claim C2 -/

/-- Success of the players loop forces the spec list to be empty: the
loop body ends in the dict insert, which always raises (unhashable
`PlayerId`). -/
theorem parsePlayers_eq_some {j : List (String × Json)}
    {specs : List Json} {acc m : List (PlayerId × PlayerGameState)}
    (h : parsePlayers j acc specs = some m) : specs = [] ∧ m = acc := by
  cases specs with
  | nil =>
    unfold parsePlayers at h
    exact ⟨rfl, (Option.some.inj h).symm⟩
  | cons spec rest =>
    exfalso
    unfold parsePlayers at h
    rcases Option.bind_eq_some.mp h with ⟨specObj, -, h⟩
    rcases Option.bind_eq_some.mp h with ⟨idStr, -, h⟩
    rcases Option.bind_eq_some.mp h with ⟨pid, -, h⟩
    rcases Option.bind_eq_some.mp h with ⟨pgs, -, h⟩
    rcases Option.bind_eq_some.mp h with ⟨acc2, hins, -⟩
    unfold dinsert at hins
    exact Option.noConfusion hins

/-- C2: vacuous on the source.  No payload with a non-empty players
list is ever successfully decoded: the first loop iteration's
`player_states[player_id] = ...` raises `TypeError` (unhashable
`PlayerId`), so every successful `parse_game_state` carries an EMPTY
player-state mapping, and a concrete two-player payload decodes to
nothing.  The outer-payload field sourcing the claim describes sits in
the loop body but can never be observed in a decoded state. -/
theorem C2_players_loop_always_raises :
    (∀ (j : List (String × Json)) (gs : GameState),
        parse_game_state j = some gs → gs.player_states = [])
    ∧ parse_game_state c2twoPlayers = none := by
  constructor
  · intro j gs h
    unfold parse_game_state at h
    rcases Option.bind_eq_some.mp h with ⟨players, h1, h⟩
    rcases Option.bind_eq_some.mp h with ⟨m, h2, h⟩
    rcases Option.bind_eq_some.mp h with ⟨pot, h3, h⟩
    rcases Option.bind_eq_some.mp h with ⟨pot0, h4, h⟩
    rcases Option.bind_eq_some.mp h with ⟨boardJson, h5, h⟩
    rcases Option.bind_eq_some.mp h with ⟨board, h6, h⟩
    rcases Option.bind_eq_some.mp h with ⟨sb, h7, h⟩
    rcases Option.bind_eq_some.mp h with ⟨bb, h8, h⟩
    rcases Option.bind_eq_some.mp h with ⟨shared, h9, h⟩
    rcases Option.bind_eq_some.mp h with ⟨activeStr, h10, h⟩
    rcases Option.map_eq_some'.mp h with ⟨active, h11, hgs⟩
    rcases parsePlayers_eq_some h2 with ⟨-, rfl⟩
    rw [← hgs]
  · decide

/-! ## Claim C6 -/

/-- C6 (amended): end-to-end `Pot` construction succeeds exactly when
the amount is nonnegative and the share mapping is EMPTY.  `PlayerId`
is unhashable, so building any non-empty `dict[PlayerId, int]` raises
`TypeError` before `Pot.__init__` even runs: construction never
succeeds with a non-empty mapping, valid values or not.  (A fortiori
it never succeeds with a negative share anywhere — but through
unhashability, not validation: `Pot.__init__` itself inspects only
the first entry.) -/
theorem C6_pot_construction (amount : Int)
    (entries : List (PlayerId × Int)) :
    (Pot.construct amount entries).isSome = true ↔
      (0 ≤ amount ∧ entries = []) := by
  unfold Pot.construct mkPlayerIdDict
  cases entries with
  | nil =>
    simp only [Option.some_bind]
    unfold Pot.mk?
    split <;> simp_all
  | cons kv rest => simp

/-- C6, as stated, fails in its success direction: the mapping
{p1: 5} with amount 10 satisfies every condition of the claim
(nonnegative amount, `PlayerId` keys, nonnegative values), yet
construction fails — the shares dict cannot even be built, because
`PlayerId` is unhashable. -/
theorem C6_counterexample :
    Pot.construct 10 [(⟨1⟩, 5)] = none ∧
      (0 ≤ (10 : Int) ∧ 0 ≤ (5 : Int)) := by decide

theorem C6_witness : (Pot.construct 0 []).isSome = true :=
  (C6_pot_construction 0 []).mpr ⟨by decide, rfl⟩

/-! ## Claim C5 theorems (continued) -/

/-- Mutating the fresh container a `copyOut`-style accessor returned
leaves the contents at the entity's stored reference unchanged. -/
theorem copyOut_independent {α : Type} (h h2 : Heap α) (r rf : Nat)
    (v : α) (hlt : r < h.cells.length)
    (hc : copyOut h r = some (h2, rf)) :
    (h2.write rf v).read r = h.read r := by
  unfold copyOut at hc
  rcases Option.map_eq_some'.mp hc with ⟨w, hread, halloc⟩
  unfold Heap.alloc at halloc
  injection halloc with hh2 hr
  subst hh2
  subst hr
  have hne : h.cells.length ≠ r := (Nat.ne_of_lt hlt).symm
  unfold Heap.write Heap.read
  rw [List.getElem?_set_ne hne, List.getElem?_append]
  simp [hlt]

/-- C5 (amended): entities have no mutators, and every
container-returning accessor (`get_cards`, `get_player_shares`,
`get_pots`, `get_board_cards`, `get_player_states`) returns an
independent copy: mutating the container an accessor returned never
changes what the entity's accessors subsequently return.  `Pot`'s
constructor moreover COPIES its share dict
(`self._player_shares = dict(player_shares)`), so mutating the dict
passed to it changes nothing either.  The other constructors store the
caller's containers without copying (`self._cards = cards`, ...), so —
as the counterexample shows — a caller mutating a container it
previously passed to one of THOSE constructors does change what the
accessors subsequently return. -/
theorem C5_accessors_return_copies :
    (∀ (p : PlayerGameStateObj) (h h2 : Heap (List (Option Card)))
        (rf : Nat) (v : List (Option Card)),
        p.cardsRef < h.cells.length → p.get_cards h = some (h2, rf) →
        (h2.write rf v).read p.cardsRef = h.read p.cardsRef)
    ∧ (∀ (q : PotObj) (h h2 : Heap (List (PlayerId × Int)))
        (rf : Nat) (v : List (PlayerId × Int)),
        q.sharesRef < h.cells.length →
        q.get_player_shares h = some (h2, rf) →
        (h2.write rf v).read q.sharesRef = h.read q.sharesRef)
    ∧ (∀ (s : SharedGameStateObj) (h h2 : Heap (List Pot))
        (rf : Nat) (v : List Pot),
        s.potsRef < h.cells.length → s.get_pots h = some (h2, rf) →
        (h2.write rf v).read s.potsRef = h.read s.potsRef)
    ∧ (∀ (s : SharedGameStateObj) (h h2 : Heap (List Card))
        (rf : Nat) (v : List Card),
        s.boardRef < h.cells.length →
        s.get_board_cards h = some (h2, rf) →
        (h2.write rf v).read s.boardRef = h.read s.boardRef)
    ∧ (∀ (g : GameStateObj)
        (h h2 : Heap (List (PlayerId × PlayerGameState)))
        (rf : Nat) (v : List (PlayerId × PlayerGameState)),
        g.player_statesRef < h.cells.length →
        g.get_player_states h = some (h2, rf) →
        (h2.write rf v).read g.player_statesRef =
          h.read g.player_statesRef)
    ∧ (∀ (h h2 : Heap (List (PlayerId × Int))) (amount : Int)
        (r : Nat) (q : PotObj) (v : List (PlayerId × Int)),
        PotObj.init h amount r = some (h2, q) →
        (h2.write r v).read q.sharesRef = h.read r) := by
  refine ⟨fun p h h2 rf v hlt hg => copyOut_independent h h2 _ rf v hlt hg,
    fun q h h2 rf v hlt hg => copyOut_independent h h2 _ rf v hlt hg,
    fun s h h2 rf v hlt hg => copyOut_independent h h2 _ rf v hlt hg,
    fun s h h2 rf v hlt hg => copyOut_independent h h2 _ rf v hlt hg,
    fun g h h2 rf v hlt hg => copyOut_independent h h2 _ rf v hlt hg,
    ?_⟩
  intro h h2 amount r q v hinit
  unfold PotObj.init at hinit
  rcases Option.bind_eq_some.mp hinit with ⟨shares, hread, hrest⟩
  unfold Heap.read at hread
  have hlt : r < h.cells.length := (List.getElem?_eq_some.mp hread).1
  rcases Option.map_eq_some'.mp hrest with ⟨p0, -, hpair⟩
  unfold Heap.alloc at hpair
  injection hpair with e1 e2
  subst e1
  subst e2
  have hne : r ≠ h.cells.length := Nat.ne_of_lt hlt
  show (Heap.write ⟨h.cells ++ [shares]⟩ r v).read h.cells.length
    = h.read r
  unfold Heap.write Heap.read
  rw [List.getElem?_set_ne hne, List.getElem?_concat_length]
  exact hread.symm

theorem C5_witness :
    (Heap.write (⟨[[none, none], [none, none]]⟩ :
        Heap (List (Option Card))) 1 []).read 0 = c5h0.read 0 :=
  C5_accessors_return_copies.1 ⟨0, false, 100, 0, 0⟩ c5h0
    ⟨[[none, none], [none, none]]⟩ 1 [] (by decide) rfl

/-! ## Claim C4 theorems (continued) -/

